import Mathlib

/-!
Shallow embedding of the findings dashboard pipeline
(src/streamlit-dashboard.py): JSON value model with Python dict/truthiness
semantics, the severity normalizer, record extraction, aggregation,
derived columns, the filter engine, summary metrics and the export payload.
-/

/-- Parsed JSON values, as produced by Python json.load.  Python None is
Json.null; Python bool is kept separate because isinstance(b, int) holds. -/
inductive Json where
  | null
  | bool (b : Bool)
  | num (q : Rat)
  | str (s : String)
  | arr (elems : List Json)
  | obj (kvs : List (String × Json))

/-- Python truthiness of a parsed JSON value (bool(v)). -/
def truthy : Json → Bool
  | .null => false
  | .bool b => b
  | .num q => decide (q ≠ 0)
  | .str s => decide (s ≠ "")
  | .arr xs => !xs.isEmpty
  | .obj kvs => !kvs.isEmpty

/-- Lookup in a Python dict built by json.load: a duplicated key keeps the
last occurrence (later entries overwrite earlier ones). -/
def dictLookup (kvs : List (String × Json)) (k : String) : Option Json :=
  kvs.foldl (fun acc kv => if kv.1 = k then some kv.2 else acc) none

/-- Python d.get(k, dflt): the stored value when the key is present (even if
it is None), else the default; raises AttributeError when d is not a dict. -/
def pyGet (d : Json) (k : String) (dflt : Json) : Except String Json :=
  match d with
  | .obj kvs => .ok ((dictLookup kvs k).getD dflt)
  | _ => .error "AttributeError: get called on a non-dict value"

/-- Python iteration (for x in v): list elements; characters of a string;
keys of a dict; TypeError otherwise. -/
def pyIter : Json → Except String (List Json)
  | .arr xs => .ok xs
  | .str s => .ok (s.toList.map (fun c => Json.str (String.mk [c])))
  | .obj kvs => .ok (kvs.map (fun kv => Json.str kv.1))
  | _ => .error "TypeError: value is not iterable"

/-- Python a or b: a when a is truthy, else b. -/
def pyOr (a b : Json) : Json := if truthy a then a else b

/-- ASCII apostrophe, used by Python repr of strings. -/
def pyQ : String := String.mk [Char.ofNat 39]

mutual

/-- Python repr() of a parsed JSON value (numeric rendering abstracted to
the Rat toString; no claim depends on the text of a rendered number). -/
def pyRepr : Json → String
  | .null => "None"
  | .bool true => "True"
  | .bool false => "False"
  | .num q => toString q
  | .str s => pyQ ++ s ++ pyQ
  | .arr xs => "[" ++ String.intercalate ", " (pyReprElems xs) ++ "]"
  | .obj kvs => "\x7b" ++ String.intercalate ", " (pyReprPairs kvs) ++ "\x7d"

/-- repr of each element of a list. -/
def pyReprElems : List Json → List String
  | [] => []
  | j :: js => pyRepr j :: pyReprElems js

/-- repr of each key/value pair of a dict. -/
def pyReprPairs : List (String × Json) → List String
  | [] => []
  | kv :: kvs => (pyQ ++ kv.1 ++ pyQ ++ ": " ++ pyRepr kv.2) :: pyReprPairs kvs

end

/-- Python str() of a parsed JSON value: the string itself for strings,
repr-style rendering otherwise. -/
def pyStr : Json → String
  | .str s => s
  | j => pyRepr j

/-- Python str.lower(), character-wise (ASCII case folding). -/
def pyLower (s : String) : String :=
  String.mk (s.toList.map Char.toLower)

/-- Python str.upper(), character-wise (ASCII case folding). -/
def pyUpper (s : String) : String :=
  String.mk (s.toList.map Char.toUpper)

/-- Python str.capitalize(): first character upper-cased, the rest
lower-cased. -/
def pyCapitalize (s : String) : String :=
  match s.toList with
  | [] => ""
  | c :: cs => String.mk (c.toUpper :: cs.map Char.toLower)

/-- Numeric branch of the severity normalizer (lines 35-40):
ge 8 Critical, ge 5 High, ge 3 Medium, else Low. -/
def numLabel (q : Rat) : String :=
  if 8 ≤ q then "Critical"
  else if 5 ≤ q then "High"
  else if 3 ≤ q then "Medium"
  else "Low"

/-- Severity normalizer (lines 32-42).  A dict severity takes Label or
Normalized or the literal "Medium" by Python or-chaining, and may therefore
produce a non-string value; a numeric severity (Python bools included,
since isinstance(b, int) holds) is bucketed by numLabel; anything else is
str()-ed and capitalized. -/
def sev_label : Json → Json
  | .obj kvs =>
      pyOr ((dictLookup kvs "Label").getD .null)
        (pyOr ((dictLookup kvs "Normalized").getD .null) (.str "Medium"))
  | .num q => .str (numLabel q)
  | .bool b => .str (numLabel (if b then 1 else 0))
  | sev => .str (pyCapitalize (pyStr sev))

/-- One row of the records list built at lines 44-54 / 57-67.  Cell values
other than Service and Resource are arbitrary Python values from dict.get
chains, so they stay Json; Resource is always passed through str(). -/
structure Record where
  Service : String
  Account : Json
  Region : Json
  Resource : String
  Severity : Json
  Title : Json
  Description : Json
  Status : Json
  CreatedAt : Json

/-- Placeholder record appended for a document with no truthy findings value
(lines 57-67). -/
def placeholderRecord (service_name : String) : Record :=
  { Service := service_name
    Account := .str ""
    Region := .str "us-east-2"
    Resource := ""
    Severity := .str "Informational"
    Title := .str ("No critical findings for " ++ service_name)
    Description := .str (service_name ++ " data loaded but no security findings reported.")
    Status := .str "N/A"
    CreatedAt := .str "" }

/-- One finding element turned into a record (lines 28-54).  Each pyGet
models a Python .get that raises AttributeError on a non-dict receiver; in
particular a non-dict finding element, or a non-dict Workflow value, makes
this fail. -/
def buildRecord (service_name : String) (fnd : Json) : Except String Record :=
  match pyGet fnd "Severity" (.str "Medium") with
  | .error e => .error e
  | .ok sev =>
  match pyGet fnd "resourceOwnerAccount" (.str "") with
  | .error e => .error e
  | .ok acctInner =>
  match pyGet fnd "AwsAccountId" acctInner with
  | .error e => .error e
  | .ok acct =>
  match pyGet fnd "Region" (.str "us-east-2") with
  | .error e => .error e
  | .ok region =>
  match pyGet fnd "resource" (.str "") with
  | .error e => .error e
  | .ok resInner =>
  match pyGet fnd "Resource" resInner with
  | .error e => .error e
  | .ok res =>
  match pyGet fnd "id" (.str ("Finding from " ++ service_name)) with
  | .error e => .error e
  | .ok titleInner =>
  match pyGet fnd "Title" titleInner with
  | .error e => .error e
  | .ok title =>
  match pyGet fnd "findingDetails" (.str "") with
  | .error e => .error e
  | .ok descInner =>
  match pyGet fnd "Description" descInner with
  | .error e => .error e
  | .ok desc =>
  match pyGet fnd "Workflow" (.obj []) with
  | .error e => .error e
  | .ok wf =>
  match pyGet fnd "status" (.str "ACTIVE") with
  | .error e => .error e
  | .ok stInner =>
  match pyGet wf "Status" stInner with
  | .error e => .error e
  | .ok st =>
  match pyGet fnd "CreatedAt" (.str "") with
  | .error e => .error e
  | .ok created =>
    .ok { Service := service_name
          Account := acct
          Region := region
          Resource := pyStr res
          Severity := sev_label sev
          Title := title
          Description := desc
          Status := st
          CreatedAt := created }

/-- Effectful map over a list, stopping at the first error (models the
for-loop over findings: an exception aborts the whole run). -/
def mapE (f : α → Except String β) : List α → Except String (List β)
  | [] => .ok []
  | x :: xs =>
    match f x with
    | .error e => .error e
    | .ok b =>
      match mapE f xs with
      | .error e => .error e
      | .ok bs => .ok (b :: bs)

/-- Record extraction for one parsed document (lines 26-67).
data.get("Findings", data.get("findings", [])) with Python evaluation
order (the inner default first), then either the per-finding loop or the
placeholder branch, keyed on Python truthiness of the findings value. -/
def extractRecords (service_name : String) (data : Json) : Except String (List Record) :=
  match pyGet data "findings" (.arr []) with
  | .error e => .error e
  | .ok inner =>
  match pyGet data "Findings" inner with
  | .error e => .error e
  | .ok findings =>
    if truthy findings then
      match pyIter findings with
      | .error e => .error e
      | .ok elems => mapE (buildRecord service_name) elems
    else
      .ok [placeholderRecord service_name]

/-- True exactly on a successful Except result. -/
def isOkE : Except String α → Bool
  | .ok _ => true
  | .error _ => false

/-- Characters of os.path.basename: what follows the last slash. -/
def afterLastSlash (cs : List Char) : List Char :=
  cs.foldl (fun acc c => if c = Char.ofNat 47 then [] else acc ++ [c]) []

/-- Service name inferred from a file name (line 21):
os.path.basename(file).split("-")[0].capitalize(). -/
def service_name_of (file : String) : String :=
  pyCapitalize (String.mk ((afterLastSlash file.toList).takeWhile (fun c => c ≠ Char.ofNat 45)))

/-- Loading loop over the input files (lines 20-67).  Each file is a name
plus either its parsed JSON document or none for a file whose json.load
raises; there is no try/except around json.load or the extraction body, so
the first exception aborts the whole run, producing no table at all. -/
def loadRecords : List (String × Option Json) → Except String (List Record)
  | [] => .ok []
  | (file, none) :: _ => .error ("json.decoder.JSONDecodeError: " ++ file)
  | (file, some d) :: rest =>
    match extractRecords (service_name_of file) d with
    | .error e => .error e
    | .ok rs =>
      match loadRecords rest with
      | .error e => .error e
      | .ok more => .ok (rs ++ more)

/-- The pandas Series.str.upper cell transform used at line 76, for an
object-dtype Severity column (one holding at least one string, or any mix
of types): a string cell is upper-cased, a non-string cell becomes NaN
(modelled as null).  A column whose cells are all numeric is inferred as a
numeric dtype instead, and the .str accessor itself raises at line 76; no
theorem below traces that homogeneous case through this per-cell map. -/
def strUpperCell : Json → Json
  | .str s => .str (pyUpper s)
  | _ => .null

/-- Line 76 applied to one record. -/
def normRecord (r : Record) : Record :=
  { r with Severity := strUpperCell r.Severity }

/-- Line 76 applied to the whole records table. -/
def normRecords (rs : List Record) : List Record := rs.map normRecord

/-- Boolean substring containment, modelling Python needle in hay. -/
def subIn (needle hay : String) : Bool :=
  decide (needle.toList <:+: hay.toList)

/-- Owning-team derivation (lines 79-88). -/
def team_map (service : String) : String :=
  let s := pyLower service
  if subIn "guardduty" s || subIn "securityhub" s then "CAPSA Team"
  else if subIn "inspector" s || subIn "accessanalyzer" s then "BCG Team"
  else if subIn "detective" s then "Both BCG & CAPSA Team"
  else "Others"

/-- Fix-timeline derivation (lines 90-101). -/
def fix_timeline (sev : String) : String :=
  let s := pyLower sev
  if s = "critical" then "5 Days"
  else if s = "high" then "1 Week"
  else if s = "medium" then "2 Weeks"
  else if s = "low" then "3 Weeks"
  else "N/A"

/-- Fix-cost derivation (lines 103-114). -/
def fix_cost (sev : String) : String :=
  let s := pyLower sev
  if s = "critical" then "$250/hour"
  else if s = "high" then "$150/hour"
  else if s = "medium" then "$75/hour"
  else if s = "low" then "$25/hour"
  else "Minimal"

/-- One row of the table after the derived columns of lines 116-118 are
appended. -/
structure DRow where
  Service : String
  Account : Json
  Region : Json
  Resource : String
  Severity : Json
  Title : Json
  Description : Json
  Status : Json
  CreatedAt : Json
  Team : String
  FixTimeline : String
  CostToFix : String

/-- Derived columns for one row (lines 116-118).  team_map receives the
Service cell, which is always a string; fix_timeline and fix_cost call
.lower() on the Severity cell, which raises AttributeError when the
str.upper step of line 76 turned a non-string severity into NaN. -/
def deriveRow (r : Record) : Except String DRow :=
  match r.Severity with
  | .str s =>
    .ok { Service := r.Service
          Account := r.Account
          Region := r.Region
          Resource := r.Resource
          Severity := .str s
          Title := r.Title
          Description := r.Description
          Status := r.Status
          CreatedAt := r.CreatedAt
          Team := team_map r.Service
          FixTimeline := fix_timeline s
          CostToFix := fix_cost s }
  | _ => .error "AttributeError: lower called on a NaN severity cell"

/-- Derived columns over the whole table. -/
def deriveAll (rs : List Record) : Except String (List DRow) :=
  mapE deriveRow rs

/-- The pandas == comparison of a cell against a selected string value, as
used by Series.isin at lines 129-140: only an equal string cell matches
(NaN or a non-string cell compares unequal). -/
def cellEqStr (cell : Json) (s : String) : Bool :=
  match cell with
  | .str t => t == s
  | _ => false

/-- Filter engine (lines 127-133): three sequential masks, each skipped
when its multiselect list is empty (Python truthiness of the list). -/
def applyFilters (df : List DRow) (svcs sevs teams : List String) : List DRow :=
  let f1 := if svcs.isEmpty then df else df.filter (fun r => svcs.contains r.Service)
  let f2 := if sevs.isEmpty then f1 else f1.filter (fun r => sevs.any (fun s => cellEqStr r.Severity s))
  let f3 := if teams.isEmpty then f2 else f2.filter (fun r => teams.contains r.Team)
  f3

/-- Total-findings metric (line 137). -/
def totalCount (view : List DRow) : Nat := view.length

/-- Critical metric (line 138). -/
def criticalCount (view : List DRow) : Nat :=
  (view.filter (fun r => cellEqStr r.Severity "CRITICAL")).length

/-- High metric (line 139). -/
def highCount (view : List DRow) : Nat :=
  (view.filter (fun r => cellEqStr r.Severity "HIGH")).length

/-- Medium/Low metric (line 140): isin(["MEDIUM", "LOW"]). -/
def medLowCount (view : List DRow) : Nat :=
  (view.filter (fun r => cellEqStr r.Severity "MEDIUM" || cellEqStr r.Severity "LOW")).length

/-- Column order of the on-screen table projection (lines 174-177). -/
def display_columns : List String :=
  ["Service", "Severity", "Team", "Fix Timeline", "Cost to Fix (Est.)",
   "Title", "Description", "Account", "Region", "Status"]

/-- Column order of the DataFrame handed to to_excel at line 187: the
record-dict insertion order of lines 44-54, then the three derived columns
appended at lines 116-118.  The export writes filtered itself, not the
ten-column projection used for display. -/
def export_columns : List String :=
  ["Service", "Account", "Region", "Resource", "Severity", "Title",
   "Description", "Status", "CreatedAt", "Team", "Fix Timeline",
   "Cost to Fix (Est.)"]

/-- Cells of one exported row, in export_columns order. -/
def rowCells (r : DRow) : List Json :=
  [.str r.Service, r.Account, r.Region, .str r.Resource, r.Severity, r.Title,
   r.Description, r.Status, r.CreatedAt, .str r.Team, .str r.FixTimeline,
   .str r.CostToFix]

/-- Excel export payload (lines 185-188): to_excel with index false writes
a header row of column names followed by one row per record, with no index
column. -/
def excelSheet (view : List DRow) : List (List Json) :=
  (export_columns.map Json.str) :: view.map rowCells

/-- True exactly on a JSON mapping. -/
def isObj : Json → Bool
  | .obj _ => true
  | _ => false

/-- The findings value the extractor computes for a mapping document:
data.get("Findings", data.get("findings", [])). -/
def findingsValue (d : Json) : Json :=
  match d with
  | .obj kvs => (dictLookup kvs "Findings").getD ((dictLookup kvs "findings").getD (.arr []))
  | _ => .arr []

/-- Shape under which one finding element is processed without raising:
the element is a mapping, and its Workflow value, when present, is a
mapping. -/
def findingOk (f : Json) : Bool :=
  match f with
  | .obj kvs =>
    match dictLookup kvs "Workflow" with
    | none => true
    | some w => isObj w
  | _ => false

/-- Shape under which a whole parsed document is processed without raising:
the document is a mapping, and its findings value, when truthy, is a list
whose elements all satisfy findingOk. -/
def docOk (d : Json) : Bool :=
  match d with
  | .obj _ =>
    if truthy (findingsValue d) then
      match findingsValue d with
      | .arr elems => elems.all findingOk
      | _ => false
    else true
  | _ => false

/-- A concrete derived row used to exercise the filter and export stages. -/
def demoRowA : DRow :=
  { Service := "Guardduty", Account := .str "123", Region := .str "us-east-2",
    Resource := "vm-1", Severity := .str "CRITICAL", Title := .str "t1",
    Description := .str "d1", Status := .str "ACTIVE", CreatedAt := .str "",
    Team := "CAPSA Team", FixTimeline := "5 Days", CostToFix := "$250/hour" }

/-- A second concrete derived row, a placeholder-shaped one. -/
def demoRowB : DRow :=
  { Service := "Inspector", Account := .str "", Region := .str "us-east-2",
    Resource := "", Severity := .str "INFORMATIONAL",
    Title := .str "No critical findings for Inspector",
    Description := .str "Inspector data loaded but no security findings reported.",
    Status := .str "N/A", CreatedAt := .str "",
    Team := "BCG Team", FixTimeline := "N/A", CostToFix := "Minimal" }

/-!
Helper lemmas shared by the claim theorems.
-/

theorem cellEqStr_eq_true_iff (c : Json) (s : String) :
    cellEqStr c s = true ↔ c = .str s := by
  cases c <;> simp [cellEqStr]

theorem cellEqStr_eq_false_iff (c : Json) (s : String) :
    cellEqStr c s = false ↔ c ≠ .str s := by
  cases c <;> simp [cellEqStr]

theorem sev_label_num (q : Rat) : sev_label (.num q) = .str (numLabel q) := rfl

theorem length_filter_add_disjoint (p q pq : α → Bool) (l : List α)
    (h : ∀ x, p x = true → q x = false)
    (hpq : ∀ x, pq x = (p x || q x)) :
    (l.filter p).length + (l.filter q).length = (l.filter pq).length := by
  induction l with
  | nil => rfl
  | cons a t ih =>
    by_cases hp : p a = true
    · have hq := h a hp
      simp only [List.filter_cons, hp, hq, hpq, Bool.true_or, if_true, if_false,
        Bool.false_eq_true, List.length_cons]
      omega
    · have hp2 : p a = false := by simpa using hp
      by_cases hq : q a = true
      · simp only [List.filter_cons, hp2, hq, hpq, Bool.false_or, if_true, if_false,
          Bool.false_eq_true, List.length_cons]
        omega
      · have hq2 : q a = false := by simpa using hq
        simp only [List.filter_cons, hp2, hq2, hpq, Bool.false_or, if_false,
          Bool.false_eq_true]
        exact ih

theorem ifMask_sublist (b : Bool) (l : List α) (p : α → Bool) :
    (if b then l else l.filter p).Sublist l := by
  cases b
  · exact List.filter_sublist l
  · exact List.Sublist.refl l

theorem length_filter_lt_iff (p : α → Bool) (l : List α) :
    (l.filter p).length < l.length ↔ ∃ x ∈ l, p x = false := by
  induction l with
  | nil => simp
  | cons a t ih =>
    by_cases hp : p a = true
    · simp only [List.filter_cons, hp, if_true, List.length_cons,
        Nat.add_lt_add_iff_right, ih, List.mem_cons]
      constructor
      · rintro ⟨x, hx, hxf⟩; exact ⟨x, Or.inr hx, hxf⟩
      · rintro ⟨x, hx | hx, hxf⟩
        · subst hx; rw [hp] at hxf; cases hxf
        · exact ⟨x, hx, hxf⟩
    · have hp2 : p a = false := by simpa using hp
      simp only [List.filter_cons, hp2, Bool.false_eq_true, if_false,
        List.length_cons]
      constructor
      · intro _; exact ⟨a, by simp, hp2⟩
      · intro _; exact Nat.lt_succ_of_le (List.length_filter_le p t)

theorem deriveRow_str (r : Record) (s : String) (h : r.Severity = .str s) :
    deriveRow r = .ok
      { Service := r.Service, Account := r.Account, Region := r.Region,
        Resource := r.Resource, Severity := .str s, Title := r.Title,
        Description := r.Description, Status := r.Status,
        CreatedAt := r.CreatedAt, Team := team_map r.Service,
        FixTimeline := fix_timeline s, CostToFix := fix_cost s } := by
  unfold deriveRow
  rw [h]

theorem mapE_ok (f : α → Except String β) (xs : List α)
    (h : ∀ x ∈ xs, isOkE (f x) = true) : isOkE (mapE f xs) = true := by
  induction xs with
  | nil => rfl
  | cons a t ih =>
    have ha := h a (by simp)
    have ht := ih (fun x hx => h x (by simp [hx]))
    simp only [mapE]
    cases hfa : f a with
    | error e => rw [hfa] at ha; simp [isOkE] at ha
    | ok b =>
      cases hmt : mapE f t with
      | error e => rw [hmt] at ht; simp [isOkE] at ht
      | ok bs => rfl

theorem buildRecord_ok (service : String) (f : Json) (h : findingOk f = true) :
    isOkE (buildRecord service f) = true := by
  cases f with
  | obj kvs =>
    simp only [findingOk] at h
    simp only [buildRecord, pyGet]
    cases hwl : dictLookup kvs "Workflow" with
    | none => simp [hwl, isOkE]
    | some w =>
      rw [hwl] at h
      cases w <;> simp_all [isObj, isOkE]
  | null => cases h
  | bool b => cases h
  | num q => cases h
  | str s => cases h
  | arr xs => cases h

/-!
Claim theorems.
-/

/-- Claim C5: for every numeric severity score s, the normalizer maps
s ge 8 to Critical, 5 le s lt 8 to High, 3 le s lt 5 to Medium and s lt 3
to Low, the boundary scores 8, 5 and 3 landing in the upper branch. -/
theorem C5_numeric_thresholds (s : Rat) :
    (8 ≤ s → sev_label (.num s) = .str "Critical") ∧
    (5 ≤ s ∧ s < 8 → sev_label (.num s) = .str "High") ∧
    (3 ≤ s ∧ s < 5 → sev_label (.num s) = .str "Medium") ∧
    (s < 3 → sev_label (.num s) = .str "Low") := by
  refine ⟨fun h => ?_, fun h => ?_, fun h => ?_, fun h => ?_⟩ <;>
    rw [sev_label_num] <;> unfold numLabel <;> split_ifs <;>
    first
      | rfl
      | (exfalso; rcases h with ⟨h1, h2⟩ <;> linarith)
      | (exfalso; linarith)

/-- Witness for C5 at the three boundary scores and one low score. -/
theorem C5_numeric_thresholds_witness :
    sev_label (.num 8) = .str "Critical" ∧ sev_label (.num 5) = .str "High" ∧
    sev_label (.num 3) = .str "Medium" ∧ sev_label (.num 0) = .str "Low" :=
  ⟨(C5_numeric_thresholds 8).1 (by norm_num),
   (C5_numeric_thresholds 5).2.1 (by norm_num),
   (C5_numeric_thresholds 3).2.2.1 (by norm_num),
   (C5_numeric_thresholds 0).2.2.2 (by norm_num)⟩

/-- Claim C8: team, fix-timeline and fix-cost derivations are pure, total,
case-insensitive functions: inputs agreeing up to letter case give equal
results, and every input, unrecognized severities included, lands in the
fixed output range of the respective table. -/
theorem C8_derivations_case_insensitive_total :
    (∀ x y : String, pyLower x = pyLower y →
      team_map x = team_map y ∧ fix_timeline x = fix_timeline y ∧
        fix_cost x = fix_cost y) ∧
    (∀ s : String,
      team_map s ∈ ["CAPSA Team", "BCG Team", "Both BCG & CAPSA Team", "Others"] ∧
      fix_timeline s ∈ ["5 Days", "1 Week", "2 Weeks", "3 Weeks", "N/A"] ∧
      fix_cost s ∈ ["$250/hour", "$150/hour", "$75/hour", "$25/hour", "Minimal"]) := by
  constructor
  · intro x y h
    refine ⟨?_, ?_, ?_⟩ <;>
      simp only [team_map, fix_timeline, fix_cost] <;> rw [h]
  · intro s
    refine ⟨?_, ?_, ?_⟩ <;>
      simp only [team_map, fix_timeline, fix_cost] <;> split_ifs <;> simp

/-- Witness for C8: the spec example pair GuardDuty / guardduty. -/
theorem C8_derivations_witness :
    team_map "GuardDuty" = team_map "guardduty" ∧ team_map "GuardDuty" = "CAPSA Team" :=
  ⟨(C8_derivations_case_insensitive_total.1 "GuardDuty" "guardduty" (by decide)).1, rfl⟩

/-- Claim C7: a record survives filtering iff, for each non-empty selection
list, its corresponding field value is selected; empty selections impose no
constraint; relative order is preserved; with all three selections empty the
view is the full table. -/
theorem C7_filter_semantics (df : List DRow) (svcs sevs teams : List String) :
    applyFilters df [] [] [] = df ∧
    (applyFilters df svcs sevs teams).Sublist df ∧
    (∀ r, r ∈ applyFilters df svcs sevs teams ↔
      r ∈ df ∧ (svcs ≠ [] → r.Service ∈ svcs) ∧
        (sevs ≠ [] → ∃ s ∈ sevs, r.Severity = .str s) ∧
        (teams ≠ [] → r.Team ∈ teams)) := by
  refine ⟨rfl, ?_, ?_⟩
  · simp only [applyFilters]
    exact (ifMask_sublist _ _ _).trans
      ((ifMask_sublist _ _ _).trans (ifMask_sublist _ _ _))
  · intro r
    simp only [applyFilters]
    by_cases h1 : svcs = [] <;> by_cases h2 : sevs = [] <;> by_cases h3 : teams = [] <;>
      simp [h1, h2, h3, List.mem_filter, cellEqStr_eq_true_iff,
        List.elem_iff, and_assoc] <;> tauto

/-- Claim C10: the Critical, High and Medium/Low summary counts sum to at
most the total count, and strictly less exactly when the view holds a
record whose severity is outside the four labels they count. -/
theorem C10_summary_counts (view : List DRow) :
    criticalCount view + highCount view + medLowCount view ≤ totalCount view ∧
    (criticalCount view + highCount view + medLowCount view < totalCount view ↔
      ∃ r ∈ view, r.Severity ≠ .str "CRITICAL" ∧ r.Severity ≠ .str "HIGH" ∧
        r.Severity ≠ .str "MEDIUM" ∧ r.Severity ≠ .str "LOW") := by
  have d1 : ∀ x : DRow, cellEqStr x.Severity "CRITICAL" = true →
      cellEqStr x.Severity "HIGH" = false := by
    intro x h
    rw [cellEqStr_eq_true_iff] at h
    rw [h]
    decide
  have d2 : ∀ x : DRow,
      (cellEqStr x.Severity "CRITICAL" || cellEqStr x.Severity "HIGH") = true →
      (cellEqStr x.Severity "MEDIUM" || cellEqStr x.Severity "LOW") = false := by
    intro x h
    rcases Bool.or_eq_true_iff.mp h with h | h <;>
      rw [cellEqStr_eq_true_iff] at h <;> rw [h] <;> decide
  have key1 := length_filter_add_disjoint
    (fun r : DRow => cellEqStr r.Severity "CRITICAL")
    (fun r : DRow => cellEqStr r.Severity "HIGH")
    (fun r : DRow => cellEqStr r.Severity "CRITICAL" || cellEqStr r.Severity "HIGH")
    view d1 (fun x => rfl)
  have key2 := length_filter_add_disjoint
    (fun r : DRow => cellEqStr r.Severity "CRITICAL" || cellEqStr r.Severity "HIGH")
    (fun r : DRow => cellEqStr r.Severity "MEDIUM" || cellEqStr r.Severity "LOW")
    (fun r : DRow => (cellEqStr r.Severity "CRITICAL" || cellEqStr r.Severity "HIGH")
      || (cellEqStr r.Severity "MEDIUM" || cellEqStr r.Severity "LOW"))
    view d2 (fun x => rfl)
  have hchar : ∀ r : DRow,
      (((cellEqStr r.Severity "CRITICAL" || cellEqStr r.Severity "HIGH")
        || (cellEqStr r.Severity "MEDIUM" || cellEqStr r.Severity "LOW")) = false) ↔
      (r.Severity ≠ .str "CRITICAL" ∧ r.Severity ≠ .str "HIGH" ∧
        r.Severity ≠ .str "MEDIUM" ∧ r.Severity ≠ .str "LOW") := by
    intro r
    simp only [Bool.or_eq_false_iff, cellEqStr_eq_false_iff, ne_eq, and_assoc]
  unfold criticalCount highCount medLowCount totalCount
  rw [key1, key2, length_filter_lt_iff]
  refine ⟨List.length_filter_le _ _, exists_congr fun r => and_congr_right fun _ => hchar r⟩

/-- Claim C9: a placeholder record, severity Informational, flows through
the severity upper-casing and the derived columns to fixTimeline N/A and
costEstimate Minimal, the fallback arms of both tables. -/
theorem C9_placeholder_fallback_derivations (service : String) :
    ∃ row : DRow,
      deriveAll (normRecords [placeholderRecord service]) = .ok [row] ∧
      row.Severity = .str "INFORMATIONAL" ∧
      row.FixTimeline = "N/A" ∧ row.CostToFix = "Minimal" :=
  ⟨_, rfl, by rfl, by rfl, by rfl⟩

/-- Witness for C7: the first demo row survives a service-only filter. -/
theorem C7_filter_semantics_witness :
    demoRowA ∈ applyFilters [demoRowA, demoRowB] ["Guardduty"] [] [] :=
  ((C7_filter_semantics [demoRowA, demoRowB] ["Guardduty"] [] []).2.2 demoRowA).mpr
    ⟨List.mem_cons_self _ _, fun _ => List.mem_cons_self _ _,
     fun h => absurd rfl h, fun h => absurd rfl h⟩

/-- Claim C1 counterexample: with an unparseable first document followed by
a perfectly good one, the loading loop aborts with the decode error instead
of completing on the remaining document, even though that document alone
extracts fine. -/
theorem C1_parse_failure_counterexample :
    loadRecords [("bad-export.json", none),
        ("guardduty-export.json",
          some (.obj [("Findings", .arr [.obj [("Severity", .num 9)]])]))] =
      .error "json.decoder.JSONDecodeError: bad-export.json" ∧
    isOkE (extractRecords "Guardduty"
        (.obj [("Findings", .arr [.obj [("Severity", .num 9)]])])) = true :=
  ⟨rfl, rfl⟩

/-- Claim C1, amended: a document that fails to parse as JSON aborts the
whole run (json.load is not wrapped in any handler), so whenever any input
file is unparseable the aggregation produces no table at all. -/
theorem C1_parse_failure_aborts (files : List (String × Option Json))
    (h : files.any (fun p => p.2.isNone) = true) :
    isOkE (loadRecords files) = false := by
  induction files with
  | nil => simp at h
  | cons f rest ih =>
    obtain ⟨name, d⟩ := f
    cases d with
    | none => rfl
    | some j =>
      have h2 : rest.any (fun p => p.2.isNone) = true := by
        simpa [Option.isNone] using h
      simp only [loadRecords]
      cases hE : extractRecords (service_name_of name) j with
      | error e => rfl
      | ok rs =>
        cases hL : loadRecords rest with
        | error e => rfl
        | ok more =>
          have hih := ih h2
          rw [hL] at hih
          simp [isOkE] at hih

/-- Witness for C1 amended: a run with one good and one unparseable file. -/
theorem C1_parse_failure_aborts_witness :
    isOkE (loadRecords [("inspector-a.json", some (.obj [])), ("x-b.json", none)]) = false :=
  C1_parse_failure_aborts _ rfl

/-- Claim C2 counterexample: a successfully parsed non-mapping document
(here a JSON array holding one well-formed finding) makes extraction raise
AttributeError instead of resolving to a default. -/
theorem C2_extraction_counterexample :
    extractRecords "Detective" (.arr [.obj []]) =
      .error "AttributeError: get called on a non-dict value" := rfl

/-- Claim C2, amended: severity normalization is a total function of the
raw value and never raises, and record extraction never raises provided the
document is a mapping whose findings value, when truthy, is a list of
mappings each carrying a mapping (or no) Workflow value; outside those
shapes extraction raises (see the counterexample) rather than defaulting. -/
theorem C2_extraction_total_on_wellshaped (service : String) (d : Json)
    (h : docOk d = true) :
    isOkE (extractRecords service d) = true := by
  cases d with
  | obj kvs =>
    simp only [docOk, findingsValue] at h
    simp only [extractRecords, pyGet]
    by_cases ht : truthy ((dictLookup kvs "Findings").getD
        ((dictLookup kvs "findings").getD (.arr []))) = true
    · rw [if_pos ht]
      rw [if_pos ht] at h
      cases hfv : (dictLookup kvs "Findings").getD
          ((dictLookup kvs "findings").getD (.arr [])) with
      | arr elems =>
        rw [hfv] at h
        simp only [pyIter]
        exact mapE_ok _ _ (fun x hx =>
          buildRecord_ok service x (by
            have := List.all_eq_true.mp h x hx
            exact this))
      | null => rw [hfv] at h; cases h
      | bool b => rw [hfv] at h; cases h
      | num q => rw [hfv] at h; cases h
      | str s => rw [hfv] at h; cases h
      | obj kvs2 => rw [hfv] at h; cases h
    · rw [if_neg ht]
      rfl
  | null => cases h
  | bool b => cases h
  | num q => cases h
  | str s => cases h
  | arr xs => cases h

/-- Witness for C2 amended: a well-shaped SecurityHub-style document. -/
theorem C2_extraction_total_witness :
    isOkE (extractRecords "Guardduty"
      (.obj [("Findings", .arr [.obj [("Severity", .num 9),
        ("Workflow", .obj [("Status", .str "RESOLVED")])]])])) = true :=
  C2_extraction_total_on_wellshaped "Guardduty" _ rfl

/-- Claim C3 counterexample: a document with one ordinary string-severity
finding and one finding whose mapping severity has only a truthy numeric
Normalized field.  The second severity label stays the number 70, so the
Severity column is mixed (object dtype) and the str.upper step of line 76
turns that cell into null (NaN), not an upper-cased string; the
derived-column stage at line 117 then fails on the null cell. -/
theorem C3_severity_counterexample :
    (extractRecords "Securityhub"
        (.obj [("Findings", .arr [
          .obj [("Severity", .str "High")],
          .obj [("Severity", .obj [("Normalized", .num 70)])]])])).map
      (fun rs => (normRecords rs).map Record.Severity) =
        .ok [.str "HIGH", Json.null] ∧
    (extractRecords "Securityhub"
        (.obj [("Findings", .arr [
          .obj [("Severity", .str "High")],
          .obj [("Severity", .obj [("Normalized", .num 70)])]])])).map
      (fun rs => isOkE (deriveAll (normRecords rs))) = .ok false :=
  ⟨rfl, rfl⟩

/-- Claim C3, amended: for records whose extracted severity label is a
string (the only case the upper-casing step preserves), the aggregated
table keeps every severity as a present upper-cased string and the derived
columns succeed; a non-string label alongside string ones instead becomes
null and makes the derive stage fail (see the counterexample), and a table
of only non-string labels already fails at the upper-casing step. -/
theorem C3_severity_uppercased_for_string_labels (recs : List Record)
    (h : ∀ r ∈ recs, ∃ s : String, r.Severity = .str s) :
    ∃ rows : List DRow, deriveAll (normRecords recs) = .ok rows ∧
      rows.length = recs.length ∧
      ∀ dr ∈ rows, ∃ s : String, dr.Severity = .str (pyUpper s) := by
  induction recs with
  | nil => exact ⟨[], rfl, rfl, by simp⟩
  | cons r t ih =>
    obtain ⟨s, hs⟩ := h r (by simp)
    obtain ⟨rows, hrows, hlen, hup⟩ := ih (fun x hx => h x (by simp [hx]))
    have hnr : (normRecord r).Severity = .str (pyUpper s) := by
      simp [normRecord, hs, strUpperCell]
    refine ⟨{ Service := (normRecord r).Service, Account := (normRecord r).Account,
              Region := (normRecord r).Region, Resource := (normRecord r).Resource,
              Severity := .str (pyUpper s), Title := (normRecord r).Title,
              Description := (normRecord r).Description,
              Status := (normRecord r).Status,
              CreatedAt := (normRecord r).CreatedAt,
              Team := team_map (normRecord r).Service,
              FixTimeline := fix_timeline (pyUpper s),
              CostToFix := fix_cost (pyUpper s) } :: rows, ?_, ?_, ?_⟩
    · show mapE deriveRow (normRecord r :: normRecords t) = _
      rw [mapE, deriveRow_str (normRecord r) (pyUpper s) hnr]
      have hok : mapE deriveRow (normRecords t) = .ok rows := hrows
      rw [hok]
    · simp [hlen]
    · intro dr hdr
      rcases List.mem_cons.mp hdr with hdr | hdr
      · exact ⟨s, by rw [hdr]⟩
      · exact hup dr hdr

/-- Witness for C3 amended: the string severity of the placeholder record. -/
theorem C3_severity_uppercased_witness :
    ∃ rows : List DRow,
      deriveAll (normRecords [placeholderRecord "Inspector"]) = .ok rows ∧
      rows.length = [placeholderRecord "Inspector"].length ∧
      ∀ dr ∈ rows, ∃ s : String, dr.Severity = .str (pyUpper s) :=
  C3_severity_uppercased_for_string_labels [placeholderRecord "Inspector"]
    (by
      intro r hr
      simp only [List.mem_singleton] at hr
      subst hr
      exact ⟨"Informational", rfl⟩)

/-- Claim C4 counterexample: the header of the export payload is the full
twelve-column DataFrame order, not the ten display columns in their fixed
order. -/
theorem C4_export_columns_counterexample :
    excelSheet [] = [export_columns.map Json.str] ∧
    export_columns ≠ display_columns ∧
    export_columns.length = 12 ∧ display_columns.length = 10 :=
  ⟨rfl, by decide, rfl, rfl⟩

/-- Claim C4, amended: the spreadsheet export contains exactly the filtered
rows in order, with a header row and no index column, but carries all
twelve DataFrame columns (the nine canonical fields in record order plus
Team, Fix Timeline and Cost to Fix); the fixed ten-column order of the
claim applies only to the on-screen table projection. -/
theorem C4_export_payload (view : List DRow) :
    (excelSheet view).length = view.length + 1 ∧
    (excelSheet view).head? = some (export_columns.map Json.str) ∧
    (excelSheet view).tail = view.map rowCells ∧
    ∀ row ∈ excelSheet view, row.length = export_columns.length := by
  refine ⟨by simp [excelSheet], rfl, rfl, ?_⟩
  intro row hrow
  rcases List.mem_cons.mp hrow with hrow | hrow
  · subst hrow; rfl
  · obtain ⟨r, _, hr⟩ := List.mem_map.mp hrow
    rw [← hr]
    rfl

/-- Witness for C4 amended: the payload for a one-row view. -/
theorem C4_export_payload_witness :
    (excelSheet [demoRowA]).length = [demoRowA].length + 1 ∧
    (excelSheet [demoRowA]).head? = some (export_columns.map Json.str) ∧
    (excelSheet [demoRowA]).tail = [demoRowA].map rowCells ∧
    ∀ row ∈ excelSheet [demoRowA], row.length = export_columns.length :=
  C4_export_payload [demoRowA]

/-- Claim C6 counterexample: a successfully parsed document that is not a
mapping (here a JSON array, so its findings list is certainly absent)
yields an AttributeError and zero records, not a placeholder record. -/
theorem C6_placeholder_counterexample :
    extractRecords "Iam" (.arr []) =
      .error "AttributeError: get called on a non-dict value" := rfl

/-- Claim C6, amended: for every parsed mapping document whose
Findings-else-findings value is the empty list (both keys absent included,
the default being the empty list), the extractor emits exactly one
placeholder record with severity Informational, status N/A, synthesized
title and description referencing the service name, and empty
account/resource/createdAt; such documents therefore yield exactly one
record, but the at-least-one-record guarantee does not extend to parsed
non-mapping documents (see the counterexample). -/
theorem C6_placeholder_for_empty_findings (service : String) (d : Json)
    (hobj : isObj d = true) (hempty : findingsValue d = .arr []) :
    extractRecords service d =
      .ok [{ Service := service, Account := .str "",
             Region := .str "us-east-2", Resource := "",
             Severity := .str "Informational",
             Title := .str ("No critical findings for " ++ service),
             Description := .str (service ++ " data loaded but no security findings reported."),
             Status := .str "N/A", CreatedAt := .str "" }] := by
  cases d with
  | obj kvs =>
    simp only [findingsValue] at hempty
    simp only [extractRecords, pyGet, hempty]
    rfl
  | null => cases hobj
  | bool b => cases hobj
  | num q => cases hobj
  | str s => cases hobj
  | arr xs => cases hobj

/-- Witness for C6 amended: a mapping document with no findings keys. -/
theorem C6_placeholder_witness :
    extractRecords "Iamaccess" (.obj [("note", .str "x")]) =
      .ok [{ Service := "Iamaccess", Account := .str "",
             Region := .str "us-east-2", Resource := "",
             Severity := .str "Informational",
             Title := .str ("No critical findings for " ++ "Iamaccess"),
             Description := .str ("Iamaccess" ++ " data loaded but no security findings reported."),
             Status := .str "N/A", CreatedAt := .str "" }] :=
  C6_placeholder_for_empty_findings "Iamaccess" (.obj [("note", .str "x")]) rfl rfl

